import Mathlib

/-!
The go-wkhtmltopdf bindings: lifecycle manager, conversion objects, converter.

A shallow embedding of `pdf.go` (package `pdf`).  The three functions the file
defines, `Init`, `Version` and `Destroy`, are one-line cgo calls into the
wkhtmltox library.  The library itself is not part of the package, so it is a
parameter of the embedding (`Native`): an arbitrary state type together with
the three C entry points the package calls.  The embedding threads an explicit
`LibraryState` through every call: the native state, the lifecycle flag of the
specification, and the trace of calls that crossed the cgo boundary.
-/

namespace Pdf

/-! ## The cgo boundary -/

/-- A value of C type `const char *`: `none` is the null pointer, `some mem` is a
pointer to the characters `mem` that lie in memory from the pointed-to address
onwards. -/
abbrev CString := Option (List Char)

/-- The NUL character that terminates a C string. -/
def NUL : Char := Char.ofNat 0

/-- `C.GoString`: the Go string made of the characters before the first NUL; the
null pointer converts to the empty string. -/
def GoString : CString → String
  | none => ""
  | some mem => String.mk (mem.takeWhile (fun c => c != NUL))

/-- The wkhtmltox entry points used by `pdf.go`, over an arbitrary native state
`σ`.  `wkhtmltopdf_init` takes the `use_graphics` flag and returns an `int`,
`wkhtmltopdf_deinit` returns an `int`, and `wkhtmltopdf_version` takes no
argument and returns a `const char *`.  Each of the three is a C function and
may change the native state. -/
structure Native (σ : Type) where
  wkhtmltopdf_init : Int → σ → σ × Int
  wkhtmltopdf_version : σ → σ × CString
  wkhtmltopdf_deinit : σ → σ × Int

/-- A call that crossed the cgo boundary, with its argument. -/
inductive NativeCall where
  | wkhtmltopdf_init (use_graphics : Int)
  | wkhtmltopdf_version
  | wkhtmltopdf_deinit
  deriving DecidableEq, Repr

/-- Library state: the lifecycle flag (has the native library been
initialised), the state of the native library, and the native calls issued so
far, oldest first. -/
structure LibraryState (σ : Type) where
  initialised : Bool
  native : σ
  trace : List NativeCall

/-- Modelled from the spec: the lifecycle flag of the Library State ("a single
lifecycle flag indicating whether the native library has been initialized");
the wkhtmltox sources that maintain it are not part of the package.  A native
init call raises the flag, a native deinit call clears it, a version query
leaves it alone. -/
def lifecycleAfter (flag : Bool) : NativeCall → Bool
  | NativeCall.wkhtmltopdf_init _ => true
  | NativeCall.wkhtmltopdf_version => flag
  | NativeCall.wkhtmltopdf_deinit => false

/-- Bookkeeping shared by every cgo call: record the call and update the
lifecycle flag. -/
def record {σ : Type} (s : LibraryState σ) (c : NativeCall) (native : σ) : LibraryState σ :=
  LibraryState.mk (lifecycleAfter s.initialised c) native (s.trace ++ [c])

/-- The cgo call `C.wkhtmltopdf_init(g)`. -/
def C_wkhtmltopdf_init {σ : Type} (N : Native σ) (g : Int) (s : LibraryState σ) :
    LibraryState σ × Int :=
  let r := N.wkhtmltopdf_init g s.native
  (record s (NativeCall.wkhtmltopdf_init g) r.1, r.2)

/-- The cgo call `C.wkhtmltopdf_version()`. -/
def C_wkhtmltopdf_version {σ : Type} (N : Native σ) (s : LibraryState σ) :
    LibraryState σ × CString :=
  let r := N.wkhtmltopdf_version s.native
  (record s NativeCall.wkhtmltopdf_version r.1, r.2)

/-- The cgo call `C.wkhtmltopdf_deinit()`. -/
def C_wkhtmltopdf_deinit {σ : Type} (N : Native σ) (s : LibraryState σ) :
    LibraryState σ × Int :=
  let r := N.wkhtmltopdf_deinit s.native
  (record s NativeCall.wkhtmltopdf_deinit r.1, r.2)

/-! ## `pdf.go` -/

/-- The Go function `Init`: `C.wkhtmltopdf_init(0)`, result discarded. -/
def Init {σ : Type} (N : Native σ) (s : LibraryState σ) : LibraryState σ :=
  (C_wkhtmltopdf_init N 0 s).1

/-- The Go function `Version`: `return C.GoString(C.wkhtmltopdf_version())`. -/
def Version {σ : Type} (N : Native σ) (s : LibraryState σ) : LibraryState σ × String :=
  let r := C_wkhtmltopdf_version N s
  (r.1, GoString r.2)

/-- The Go function `Destroy`: `C.wkhtmltopdf_deinit()`, result discarded. -/
def Destroy {σ : Type} (N : Native σ) (s : LibraryState σ) : LibraryState σ :=
  (C_wkhtmltopdf_deinit N s).1

/-! ## Sample native libraries -/

/-- The characters of a Go string followed by the terminating NUL. -/
def cstr (s : String) : CString := some (s.data ++ [NUL])

/-- A native library in the style of wkhtmltox: the state is a usage counter,
init increments it, deinit decrements it, and the version is a constant. -/
def sampleNative : Native Nat where
  wkhtmltopdf_init := fun _ n => (n + 1, 1)
  wkhtmltopdf_version := fun n => (n, cstr "0.12.6")
  wkhtmltopdf_deinit := fun n => (n - 1, 1)

/-- A native library whose version call is stateful: the state counts the
version queries made so far and the report names the query. -/
def countingNative : Native Nat where
  wkhtmltopdf_init := fun _ n => (n, 1)
  wkhtmltopdf_version := fun n => (n + 1, if n = 0 then cstr "call-1" else cstr "call-2")
  wkhtmltopdf_deinit := fun n => (n, 1)

/-- The state of a process that has made no native call yet. -/
def fresh {σ : Type} (native : σ) : LibraryState σ := LibraryState.mk false native []

/-- Number of native init calls in a trace. -/
def initCalls (t : List NativeCall) : Nat :=
  (t.filter (fun c => match c with
    | NativeCall.wkhtmltopdf_init _ => true
    | _ => false)).length

/-- Number of native deinit calls in a trace. -/
def deinitCalls (t : List NativeCall) : Nat :=
  (t.filter (fun c => decide (c = NativeCall.wkhtmltopdf_deinit))).length

/-! ## Conversion objects and converter -/

/-- Modelled from the spec: the error taxonomy (`InputError`, `ConversionError`,
`LifecycleError`); `pdf.go` declares no error type.  Each error carries its
message text. -/
inductive PdfError where
  | InputError (msg : String)
  | ConversionError (msg : String)
  | LifecycleError (msg : String)
  deriving DecidableEq, Repr

/-- Modelled from the spec: the option mapping of objects and converters, string
keys to string values; `pdf.go` only shows calls of `SetOption` in the example
of its package comment.  The mapping is a list of key/value entries. -/
abbrev OptionMap := List (String × String)

/-- Modelled from the spec: reading an option mapping at a key (the first entry
for the key). -/
def OptionMap.get : OptionMap → String → Option String
  | [], _ => none
  | (k', v') :: rest, k => if k' = k then some v' else OptionMap.get rest k

/-- Modelled from the spec: storing a pair into an option mapping, "overwriting
any prior value for the same key"; an absent key gets a new entry. -/
def OptionMap.store : OptionMap → String → String → OptionMap
  | [], k, v => [(k, v)]
  | (k', v') :: rest, k, v =>
    if k' = k then (k, v) :: rest else (k', v') :: OptionMap.store rest k v

/-- Modelled from the spec: the three input kinds of a Conversion Object (file
path, URL, in-memory byte stream). -/
inductive Source where
  | file (path : String)
  | url (location : String)
  | stream (bytes : List Nat)
  deriving DecidableEq, Repr

/-- Modelled from the spec: a Conversion Object, one input source plus its option
mapping; the type is not declared in `pdf.go`. -/
structure Object where
  source : Source
  options : OptionMap
  deriving DecidableEq, Repr

/-- What the file system knows about a path. -/
inductive FileStatus where
  | missing
  | unreadable
  | readable
  deriving DecidableEq, Repr

/-- The file system consulted by the file-path constructor. -/
abbrev FileSystem := String → FileStatus

/-- Modelled from the spec: the file-path constructor `FromFile(path) -> (Object,
error)` (`pdf.NewObject` in the package example), which is not defined in
`pdf.go`: "fails with `InputError` if the path cannot be read", otherwise yields
an Object for the path with an empty option mapping.  The Go result pair is a
pair of optional values, `none` standing for `nil`. -/
def FromFile (fs : FileSystem) (path : String) : Option Object × Option PdfError :=
  match fs path with
  | FileStatus.readable => (some (Object.mk (Source.file path) []), none)
  | _ => (none, some (PdfError.InputError path))

/-- Modelled from the spec: `Object.SetOption(key, value string)`, not defined in
`pdf.go`: stores the pair into the object's option mapping, no validation, no
result. -/
def Object.SetOption (o : Object) (key value : String) : Object :=
  Object.mk o.source (OptionMap.store o.options key value)

/-- Modelled from the spec: a Converter, the ordered list of its objects plus its
own option mapping; the type is not declared in `pdf.go`. -/
structure Converter where
  objects : List Object
  options : OptionMap
  deriving DecidableEq, Repr

/-- Modelled from the spec: `NewConverter()`, not defined in `pdf.go`: "creates an
empty converter with an empty option mapping". -/
def NewConverter : Converter := Converter.mk [] []

/-- Modelled from the spec: `Converter.AddObject(obj)`, not defined in `pdf.go`:
"appends a Conversion Object to the converter's ordered list of objects". -/
def Converter.AddObject (c : Converter) (o : Object) : Converter :=
  Converter.mk (c.objects ++ [o]) c.options

/-- Modelled from the spec: `Converter.SetOption(key, value string)`, not defined
in `pdf.go`: "stores converter-level settings identically to object-level
options". -/
def Converter.SetOption (c : Converter) (key value : String) : Converter :=
  Converter.mk c.objects (OptionMap.store c.options key value)

/-- The native rendering engine, over an arbitrary state `ω` of the engine and
its surroundings (network, files): given the converter options and the objects
in order, it produces the PDF bytes or an error text. -/
abbrev Engine (ω : Type) := ω → OptionMap → List Object → ω × Except String (List Nat)

/-- The engine state together with the conversion requests handed to the engine
so far, oldest first. -/
structure EngineState (ω : Type) where
  world : ω
  requests : List (OptionMap × List Object)

/-- Modelled from the spec: how `Convert()` reports the engine's outcome as the Go
result pair `([]byte, error)`: on success "the raw PDF byte buffer", otherwise a
"`ConversionError` carrying the native engine's error text".  The pair is a pair
of optional values, `none` standing for `nil`. -/
def convertResult : Except String (List Nat) → Option (List Nat) × Option PdfError
  | Except.ok buf => (some buf, none)
  | Except.error msg => (none, some (PdfError.ConversionError msg))

/-- Modelled from the spec: `Converter.Convert() -> ([]byte, error)`, not defined
in `pdf.go`: invokes the native engine once, synchronously, on the converter's
options and objects and reports its outcome. -/
def Converter.Convert {ω : Type} (E : Engine ω) (w : EngineState ω) (c : Converter) :
    EngineState ω × Option (List Nat) × Option PdfError :=
  let r := E w.world c.options c.objects
  (EngineState.mk r.1 (w.requests ++ [(c.options, c.objects)]), convertResult r.2)

/-- A file system with one readable file, one unreadable file, nothing else. -/
def sampleFS : FileSystem := fun p =>
  if p = "sample1.html" then FileStatus.readable
  else if p = "secret.html" then FileStatus.unreadable
  else FileStatus.missing

/-! ## Helper lemmas -/

theorem takeWhile_upto_NUL (l rest : List Char) (h : NUL ∉ l) :
    (l ++ NUL :: rest).takeWhile (fun c => c != NUL) = l := by
  induction l with
  | nil => simp [List.takeWhile_cons]
  | cons a t ih =>
    have ha : (a != NUL) = true := by
      simp only [bne_iff_ne]
      exact fun e => h (by simp [e])
    have ht : NUL ∉ t := fun m => h (List.mem_cons_of_mem a m)
    rw [List.cons_append, List.takeWhile_cons, ha]
    simp [ih ht]

theorem GoString_terminated (str : String) (rest : List Char) (h : NUL ∉ str.data) :
    GoString (some (str.data ++ NUL :: rest)) = str := by
  simp [GoString, takeWhile_upto_NUL str.data rest h]

theorem initCalls_append (t u : List NativeCall) :
    initCalls (t ++ u) = initCalls t + initCalls u := by
  simp [initCalls]

theorem deinitCalls_append (t u : List NativeCall) :
    deinitCalls (t ++ u) = deinitCalls t + deinitCalls u := by
  simp [deinitCalls]

theorem OptionMap.get_store_same (m : OptionMap) (k v : String) :
    OptionMap.get (OptionMap.store m k v) k = some v := by
  induction m with
  | nil => simp [OptionMap.store, OptionMap.get]
  | cons e rest ih =>
    obtain ⟨k', v'⟩ := e
    by_cases h : k' = k
    · simp [OptionMap.store, OptionMap.get, h]
    · simp [OptionMap.store, OptionMap.get, h, ih]

theorem OptionMap.get_store_other (m : OptionMap) (k v k2 : String) (hne : k2 ≠ k) :
    OptionMap.get (OptionMap.store m k v) k2 = OptionMap.get m k2 := by
  induction m with
  | nil => simp [OptionMap.store, OptionMap.get, Ne.symm hne]
  | cons e rest ih =>
    obtain ⟨k', v'⟩ := e
    by_cases h : k' = k
    · subst h
      simp [OptionMap.store, OptionMap.get, Ne.symm hne]
    · by_cases h2 : k' = k2
      · subst h2
        simp [OptionMap.store, OptionMap.get, h]
      · simp [OptionMap.store, OptionMap.get, h, h2, ih]

theorem foldl_AddObject_objects (objs : List Object) (c : Converter) :
    (objs.foldl Converter.AddObject c).objects = c.objects ++ objs := by
  induction objs generalizing c with
  | nil => simp
  | cons o rest ih => simp [List.foldl, ih, Converter.AddObject]

theorem foldl_AddObject_options (objs : List Object) (c : Converter) :
    (objs.foldl Converter.AddObject c).options = c.options := by
  induction objs generalizing c with
  | nil => simp
  | cons o rest ih => simp [List.foldl, ih, Converter.AddObject]

/-! ## Library Lifecycle Manager -/

/-- C1: for every native library and every library state, `Version()` returns
exactly `GoString` of what the native `wkhtmltopdf_version` call reports; in
particular, when the native call reports a NUL-terminated string, `Version()`
returns precisely its characters, nothing trimmed, prefixed or altered.  The
result is a plain string (no error component). -/
theorem Version_returns_native_string {σ : Type} (N : Native σ) (s : LibraryState σ) :
    (Version N s).2 = GoString (N.wkhtmltopdf_version s.native).2
    ∧ ∀ (str : String) (rest : List Char), NUL ∉ str.data →
        (N.wkhtmltopdf_version s.native).2 = some (str.data ++ NUL :: rest) →
        (Version N s).2 = str := by
  refine ⟨rfl, ?_⟩
  intro str rest hn hv
  show GoString (N.wkhtmltopdf_version s.native).2 = str
  rw [hv]
  exact GoString_terminated str rest hn

theorem Version_returns_native_string_witness :
    NUL ∉ "0.12.6".data
    ∧ (sampleNative.wkhtmltopdf_version (fresh 0).native).2 = some ("0.12.6".data ++ NUL :: [])
    ∧ (Version sampleNative (fresh 0)).2 = "0.12.6" :=
  ⟨by decide, by decide,
    (Version_returns_native_string sampleNative (fresh 0)).2 "0.12.6" [] (by decide) (by decide)⟩

/-- C2: from any state whose lifecycle flag is clear, `Init()` followed at once by
`Destroy()` issues exactly the native calls `wkhtmltopdf_init` then
`wkhtmltopdf_deinit`, in that order: the trace grows by those two entries and
the native state is the one the library's deinit leaves when applied to what
its init (with flag 0) left.  The lifecycle flag is raised in between and ends
as it started, clear. -/
theorem Init_then_Destroy_clean {σ : Type} (N : Native σ) (s : LibraryState σ)
    (h : s.initialised = false) :
    (Destroy N (Init N s)).trace
        = s.trace ++ [NativeCall.wkhtmltopdf_init 0, NativeCall.wkhtmltopdf_deinit]
    ∧ (Destroy N (Init N s)).native
        = (N.wkhtmltopdf_deinit (N.wkhtmltopdf_init 0 s.native).1).1
    ∧ (Init N s).initialised = true
    ∧ (Destroy N (Init N s)).initialised = s.initialised
    ∧ (Destroy N (Init N s)).initialised = false := by
  refine ⟨?_, rfl, rfl, ?_, rfl⟩
  · simp [Destroy, Init, C_wkhtmltopdf_deinit, C_wkhtmltopdf_init, record]
  · rw [h]; rfl

theorem Init_then_Destroy_clean_witness :
    (fresh 0 : LibraryState Nat).initialised = false
    ∧ (Destroy sampleNative (Init sampleNative (fresh 0))).trace
        = [NativeCall.wkhtmltopdf_init 0, NativeCall.wkhtmltopdf_deinit]
    ∧ (Destroy sampleNative (Init sampleNative (fresh 0))).native = 0
    ∧ (Destroy sampleNative (Init sampleNative (fresh 0))).initialised = false :=
  ⟨rfl, (Init_then_Destroy_clean sampleNative (fresh 0) rfl).1,
    (Init_then_Destroy_clean sampleNative (fresh 0) rfl).2.1,
    (Init_then_Destroy_clean sampleNative (fresh 0) rfl).2.2.2.2⟩

/-- C8: no lifecycle guarding.  In every library state (whatever the flag and
whatever calls came before) `Init`, `Version` and `Destroy` each issue their one
native call and hand the native state to the library; so `Version()` before any
`Init()`, a second `Init()`, and `Destroy()` without a prior `Init()` all reach
the native library.  None of the three has an error result. -/
theorem lifecycle_calls_unguarded {σ : Type} (N : Native σ) (s : LibraryState σ) (n : σ) :
    ((Init N s).trace = s.trace ++ [NativeCall.wkhtmltopdf_init 0]
      ∧ (Init N s).native = (N.wkhtmltopdf_init 0 s.native).1)
    ∧ ((Version N s).1.trace = s.trace ++ [NativeCall.wkhtmltopdf_version]
      ∧ (Version N s).1.native = (N.wkhtmltopdf_version s.native).1
      ∧ (Version N s).2 = GoString (N.wkhtmltopdf_version s.native).2)
    ∧ ((Destroy N s).trace = s.trace ++ [NativeCall.wkhtmltopdf_deinit]
      ∧ (Destroy N s).native = (N.wkhtmltopdf_deinit s.native).1)
    ∧ (Version N (fresh n)).1.trace = [NativeCall.wkhtmltopdf_version]
    ∧ (Init N (Init N s)).trace
        = s.trace ++ [NativeCall.wkhtmltopdf_init 0, NativeCall.wkhtmltopdf_init 0]
    ∧ (Destroy N (fresh n)).trace = [NativeCall.wkhtmltopdf_deinit]
    ∧ (Destroy N (Destroy N (Init N s))).trace
        = s.trace ++ [NativeCall.wkhtmltopdf_init 0, NativeCall.wkhtmltopdf_deinit,
            NativeCall.wkhtmltopdf_deinit] := by
  refine ⟨⟨rfl, rfl⟩, ⟨rfl, rfl, rfl⟩, ⟨rfl, rfl⟩, rfl, ?_, rfl, ?_⟩
  · simp [Init, C_wkhtmltopdf_init, record]
  · simp [Destroy, Init, C_wkhtmltopdf_deinit, C_wkhtmltopdf_init, record]

/-- C9: every call to `Init()` adds exactly one native call to the trace, a
`wkhtmltopdf_init` whose graphics flag is the constant 0, and the native state
it leaves is the one `wkhtmltopdf_init(0)` produces; `Init` takes no argument,
so no other flag value can be passed. -/
theorem Init_one_call_flag_zero {σ : Type} (N : Native σ) (s : LibraryState σ) :
    (Init N s).trace = s.trace ++ [NativeCall.wkhtmltopdf_init 0]
    ∧ (Init N s).trace.length = s.trace.length + 1
    ∧ initCalls (Init N s).trace = initCalls s.trace + 1
    ∧ (∀ g : Int, NativeCall.wkhtmltopdf_init g ∈ (Init N s).trace.drop s.trace.length ↔ g = 0)
    ∧ (Init N s).native = (N.wkhtmltopdf_init 0 s.native).1 := by
  have ht : (Init N s).trace = s.trace ++ [NativeCall.wkhtmltopdf_init 0] := rfl
  refine ⟨ht, ?_, ?_, ?_, rfl⟩
  · rw [ht]; simp
  · rw [ht, initCalls_append]; rfl
  · intro g
    rw [ht, List.drop_left]
    simp

/-- C10, as stated, fails in its last part: linked against a library whose
version call is stateful, two consecutive `Version()` calls, with no `Init` or
`Destroy` between them, return different strings ("call-1", then "call-2"). -/
theorem Version_twice_can_differ :
    (Version countingNative (fresh 0)).2 = "call-1"
    ∧ (Version countingNative (Version countingNative (fresh 0)).1).2 = "call-2"
    ∧ (Version countingNative (Version countingNative (fresh 0)).1).1.trace
        = [NativeCall.wkhtmltopdf_version, NativeCall.wkhtmltopdf_version]
    ∧ ¬ ((Version countingNative (Version countingNative (fresh 0)).1).2
        = (Version countingNative (fresh 0)).2) := by
  decide

/-- C10, amended: in every library state `Version()` issues a single
`wkhtmltopdf_version` call and no init or deinit call and leaves the lifecycle
flag as it was; the native state it leaves is whatever the library's version
call leaves, and a second `Version()` right after it returns what the library
reports in that state.  `pdf.go` keeps no copy of the string, so wherever the
library's version call hands back the native state it was given, the native
state is unchanged and the second `Version()` returns the same string as the
first. -/
theorem Version_is_observer {σ : Type} (N : Native σ) (s : LibraryState σ) :
    (Version N s).1.trace = s.trace ++ [NativeCall.wkhtmltopdf_version]
    ∧ (Version N (Version N s).1).1.trace
        = s.trace ++ [NativeCall.wkhtmltopdf_version, NativeCall.wkhtmltopdf_version]
    ∧ initCalls (Version N s).1.trace = initCalls s.trace
    ∧ deinitCalls (Version N s).1.trace = deinitCalls s.trace
    ∧ (Version N s).1.initialised = s.initialised
    ∧ (Version N s).1.native = (N.wkhtmltopdf_version s.native).1
    ∧ (Version N (Version N s).1).2
        = GoString (N.wkhtmltopdf_version (N.wkhtmltopdf_version s.native).1).2
    ∧ ((N.wkhtmltopdf_version s.native).1 = s.native →
        (Version N s).1.native = s.native
        ∧ (Version N (Version N s).1).2 = (Version N s).2) := by
  have ht : (Version N s).1.trace = s.trace ++ [NativeCall.wkhtmltopdf_version] := rfl
  refine ⟨ht, ?_, ?_, ?_, rfl, rfl, rfl, ?_⟩
  · simp [Version, C_wkhtmltopdf_version, record]
  · rw [ht, initCalls_append]; rfl
  · rw [ht, deinitCalls_append]; rfl
  · intro hobs
    refine ⟨hobs, ?_⟩
    show GoString (N.wkhtmltopdf_version (N.wkhtmltopdf_version s.native).1).2
      = GoString (N.wkhtmltopdf_version s.native).2
    rw [hobs]

theorem Version_is_observer_witness :
    (sampleNative.wkhtmltopdf_version (Init sampleNative (fresh 0)).native).1
        = (Init sampleNative (fresh 0)).native
    ∧ (Version sampleNative (Init sampleNative (fresh 0))).2 = "0.12.6"
    ∧ (Version sampleNative (Version sampleNative (Init sampleNative (fresh 0))).1).2
        = (Version sampleNative (Init sampleNative (fresh 0))).2 :=
  ⟨by decide, by decide,
    ((Version_is_observer sampleNative (Init sampleNative (fresh 0))).2.2.2.2.2.2.2
      (by decide)).2⟩

/-! ## Conversion Object Builder -/

/-- C4: for a readable file path the file-path constructor returns an Object for
that path and no error; for a non-existent path it returns no Object and an
`InputError`; whatever the path, it returns exactly one of an Object and an
error, never both. -/
theorem FromFile_object_or_InputError (fs : FileSystem) (path : String) :
    (fs path = FileStatus.readable →
        FromFile fs path = (some (Object.mk (Source.file path) []), none))
    ∧ (fs path = FileStatus.missing →
        (FromFile fs path).1 = none ∧ ∃ msg, (FromFile fs path).2 = some (PdfError.InputError msg))
    ∧ ¬ ((FromFile fs path).1 ≠ none ∧ (FromFile fs path).2 ≠ none)
    ∧ ((FromFile fs path).1 ≠ none ∨ (FromFile fs path).2 ≠ none) := by
  refine ⟨?_, ?_, ?_, ?_⟩
  · intro h; simp [FromFile, h]
  · intro h; simp [FromFile, h]
  · cases h : fs path <;> simp [FromFile, h]
  · cases h : fs path <;> simp [FromFile, h]

theorem FromFile_object_or_InputError_witness :
    (sampleFS "sample1.html" = FileStatus.readable
      ∧ FromFile sampleFS "sample1.html"
          = (some (Object.mk (Source.file "sample1.html") []), none))
    ∧ (sampleFS "missing.html" = FileStatus.missing
      ∧ (FromFile sampleFS "missing.html").1 = none
      ∧ ∃ msg, (FromFile sampleFS "missing.html").2 = some (PdfError.InputError msg)) :=
  ⟨⟨by decide, (FromFile_object_or_InputError sampleFS "sample1.html").1 (by decide)⟩,
    ⟨by decide, (FromFile_object_or_InputError sampleFS "missing.html").2.1 (by decide)⟩⟩

/-- C5: on every Object and every Converter, for every key and values v1, v2,
after `SetOption(key, v1)` then `SetOption(key, v2)` the option mapping holds v2
at key and holds at every other key what it held before; `SetOption` is total
(no error result, no key or value refused) and touches nothing but the option
mapping. -/
theorem SetOption_last_write_wins (o : Object) (c : Converter) (key v1 v2 : String) :
    OptionMap.get ((o.SetOption key v1).SetOption key v2).options key = some v2
    ∧ (∀ k2 : String, k2 ≠ key →
        OptionMap.get ((o.SetOption key v1).SetOption key v2).options k2
          = OptionMap.get o.options k2)
    ∧ ((o.SetOption key v1).SetOption key v2).source = o.source
    ∧ OptionMap.get ((c.SetOption key v1).SetOption key v2).options key = some v2
    ∧ (∀ k2 : String, k2 ≠ key →
        OptionMap.get ((c.SetOption key v1).SetOption key v2).options k2
          = OptionMap.get c.options k2)
    ∧ ((c.SetOption key v1).SetOption key v2).objects = c.objects := by
  refine ⟨?_, ?_, rfl, ?_, ?_, rfl⟩
  · exact OptionMap.get_store_same _ key v2
  · intro k2 hne
    show OptionMap.get (OptionMap.store (OptionMap.store o.options key v1) key v2) k2 = _
    rw [OptionMap.get_store_other _ key v2 k2 hne, OptionMap.get_store_other _ key v1 k2 hne]
  · exact OptionMap.get_store_same _ key v2
  · intro k2 hne
    show OptionMap.get (OptionMap.store (OptionMap.store c.options key v1) key v2) k2 = _
    rw [OptionMap.get_store_other _ key v2 k2 hne, OptionMap.get_store_other _ key v1 k2 hne]

theorem SetOption_last_write_wins_witness :
    "header.center" ≠ "footer.right"
    ∧ OptionMap.get (((Object.mk (Source.file "sample1.html") [("header.center", "first")]).SetOption
          "footer.right" "[page]").SetOption "footer.right" "[topage]").options "header.center"
        = some "first"
    ∧ OptionMap.get (((Object.mk (Source.file "sample1.html") [("header.center", "first")]).SetOption
          "footer.right" "[page]").SetOption "footer.right" "[topage]").options "footer.right"
        = some "[topage]" :=
  ⟨by decide,
    (SetOption_last_write_wins (Object.mk (Source.file "sample1.html") [("header.center", "first")])
      NewConverter "footer.right" "[page]" "[topage]").2.1 "header.center" (by decide),
    (SetOption_last_write_wins (Object.mk (Source.file "sample1.html") [("header.center", "first")])
      NewConverter "footer.right" "[page]" "[topage]").1⟩

/-! ## Converter -/

/-- C6: `NewConverter()` has no objects and no options; `AddObject` appends at
the end and keeps the earlier entries and the options; so after adding the
objects of any sequence in turn the converter's object list is that sequence,
and it is that sequence, in that order, which `Convert()` hands to the engine. -/
theorem Converter_objects_in_call_order {ω : Type} (E : Engine ω) (w : EngineState ω)
    (objs : List Object) (c : Converter) (o : Object) :
    NewConverter.objects = [] ∧ NewConverter.options = []
    ∧ (c.AddObject o).objects = c.objects ++ [o]
    ∧ (c.AddObject o).objects.take c.objects.length = c.objects
    ∧ (c.AddObject o).options = c.options
    ∧ (objs.foldl Converter.AddObject NewConverter).objects = objs
    ∧ (Converter.Convert E w (objs.foldl Converter.AddObject NewConverter)).1.requests
        = w.requests ++ [([], objs)] := by
  have ho : (objs.foldl Converter.AddObject NewConverter).objects = objs := by
    rw [foldl_AddObject_objects]; rfl
  have hp : (objs.foldl Converter.AddObject NewConverter).options = [] := by
    rw [foldl_AddObject_options]; rfl
  refine ⟨rfl, rfl, rfl, ?_, rfl, ho, ?_⟩
  · show (c.objects ++ [o]).take c.objects.length = c.objects
    simp
  · show w.requests ++ [((objs.foldl Converter.AddObject NewConverter).options,
        (objs.foldl Converter.AddObject NewConverter).objects)] = _
    rw [ho, hp]

/-- C7: for every converter (and every engine and engine state), `Convert()`
invokes the engine exactly once and returns either the engine's byte buffer with
no error, or no buffer and a `ConversionError` whose message is the engine's
error text unchanged; never a buffer together with an error. -/
theorem Convert_buffer_or_ConversionError {ω : Type} (E : Engine ω) (w : EngineState ω)
    (c : Converter) :
    ((∃ buf, (E w.world c.options c.objects).2 = Except.ok buf
          ∧ (Converter.Convert E w c).2 = (some buf, none))
      ∨ (∃ msg, (E w.world c.options c.objects).2 = Except.error msg
          ∧ (Converter.Convert E w c).2 = (none, some (PdfError.ConversionError msg))))
    ∧ ¬ ((Converter.Convert E w c).2.1 ≠ none ∧ (Converter.Convert E w c).2.2 ≠ none)
    ∧ (Converter.Convert E w c).1.requests = w.requests ++ [(c.options, c.objects)]
    ∧ (Converter.Convert E w c).1.world = (E w.world c.options c.objects).1 := by
  have hr : (Converter.Convert E w c).2 = convertResult (E w.world c.options c.objects).2 := rfl
  rw [hr]
  refine ⟨?_, ?_, rfl, rfl⟩
  · cases (E w.world c.options c.objects).2 with
    | error msg => exact Or.inr ⟨msg, rfl, rfl⟩
    | ok buf => exact Or.inl ⟨buf, rfl, rfl⟩
  · cases (E w.world c.options c.objects).2 with
    | error msg => simp [convertResult]
    | ok buf => simp [convertResult]

end Pdf
